import Mathlib

/-!
# Verification of the fileTransfer local file-sharing application

Shallow embedding of the browser client (`src/script.js`) of the
`fileTransfer` repository, together with a model of the registry server
that the launchers (`run.bat`, the shell launcher) start as `server.py`;
that server file is not part of the sources, so its operations are
modelled from the specification (each such definition is marked
`Modelled from the spec:` in its doc comment).

Numbers are embedded as `Nat` with exact arithmetic: `Math.round`,
`Math.floor(Math.log b / Math.log 1024)` and `toFixed(2)` are given
their exact-real-arithmetic meaning.  JS strings are embedded as `String`
where only equality matters and as `List Char` where the code inspects
or concatenates characters (URL joining).
-/

namespace FileShare

/-! ## Exact-arithmetic helpers for the JS numeric operations -/

/-- `Math.round (a / b)` for nonnegative `a` and `b`, in exact arithmetic
(round half away from zero); division by zero yields 0 in this model. -/
def jsRound (a b : Nat) : Nat := (2 * a + b) / (2 * b)

/-- Fuel-driven base-1024 integer logarithm; with enough fuel this is
`Math.floor (Math.log n / Math.log 1024)` in exact real arithmetic. -/
def log1024Aux : Nat → Nat → Nat
  | 0, _ => 0
  | fuel + 1, n => if n < 1024 then 0 else log1024Aux fuel (n / 1024) + 1

/-- `Math.floor (Math.log bytes / Math.log 1024)` from `formatFileSize`
(script.js line 708), in exact real arithmetic. -/
def log1024 (n : Nat) : Nat := log1024Aux n n

theorem log1024Aux_eq_log {fuel n : Nat} (h : n ≤ fuel) :
    log1024Aux fuel n = Nat.log 1024 n := by
  induction fuel generalizing n with
  | zero =>
    interval_cases n
    simp [log1024Aux]
  | succ f ih =>
    rw [log1024Aux]
    by_cases hn : n < 1024
    · rw [if_pos hn, eq_comm, Nat.log_eq_zero_iff]
      exact Or.inl hn
    · push_neg at hn
      have hdiv : n / 1024 ≤ f := by
        have h1 : n / 1024 < n := Nat.div_lt_self (by omega) (by omega)
        omega
      rw [if_neg (by omega), ih hdiv]
      have := Nat.log_div_base 1024 n
      have hpos : 0 < Nat.log 1024 n := Nat.log_pos (by norm_num) hn
      omega

theorem log1024_eq_log (n : Nat) : log1024 n = Nat.log 1024 n :=
  log1024Aux_eq_log le_rfl

/-! ## formatFileSize (script.js lines 704-710)

```js
formatFileSize(bytes) {
    if (bytes === 0) return '0 Bytes';
    const k = 1024;
    const sizes = ['Bytes', 'KB', 'MB', 'GB', 'TB'];
    const i = Math.floor(Math.log(bytes) / Math.log(k));
    return parseFloat((bytes / Math.pow(k, i)).toFixed(2)) + ' ' + sizes[i];
}
```
`sizes[i]` for `i ≥ 5` is `undefined` in JS and stringifies to the word
`undefined`; the model renders a missing index the same way. -/

def sizes : List String := ["Bytes", "KB", "MB", "GB", "TB"]

/-- `parseFloat(x.toFixed(2))` stringified, where `h` counts hundredths of
the value: trailing zeros of the two decimal places are dropped, exactly as
JS number-to-string conversion does at these magnitudes. -/
def renderHundredths (h : Nat) : String :=
  if h % 100 = 0 then toString (h / 100)
  else if h % 10 = 0 then toString (h / 100) ++ "." ++ toString (h / 10 % 10)
  else toString (h / 100) ++ "." ++ toString (h / 10 % 10) ++ toString (h % 10)

def formatFileSize (bytes : Nat) : String :=
  if bytes = 0 then "0 Bytes"
  else
    let i := log1024 bytes
    let h := jsRound (100 * bytes) (1024 ^ i)
    renderHundredths h ++ " " ++ ((sizes.get? i).getD "undefined")

/-! ## URL joining (script.js lines 346-349, 386-389, 427-430)

The client builds each request URL from the user-entered host base URL:
```js
const testUrl = hostUrl.endsWith('/') ? hostUrl + 'api/files' : hostUrl + '/api/files';
```
and the analogous two-armed conditional for `api/files` in
`loadAvailableFiles` and `api/download/fileId` in `downloadFile`.
URLs are embedded as `List Char`. -/

/-- `s.endsWith('/')` on a JS string: the last character is a slash. -/
def endsWithSlash (s : List Char) : Bool := s.getLast? == some '/'

/-- The trailing-slash-sensitive concatenation the three call sites share;
`path` carries no leading slash (`api/files`, `api/download/...`). -/
def joinApi (base : List Char) (path : List Char) : List Char :=
  if endsWithSlash base then base ++ path else base ++ '/' :: path

def apiFiles : List Char := "api/files".toList

def downloadPath (fileId : List Char) : List Char := "api/download/".toList ++ fileId

/-- URL used by `loadAvailableFiles` (386-389): joined with the current host
URL when connected to a remote host, a relative path otherwise. -/
def filesUrl (currentHostUrl : Option (List Char)) : List Char :=
  match currentHostUrl with
  | some u => joinApi u apiFiles
  | none => "/api/files".toList

/-- URL used by `downloadFile` (427-430). -/
def downloadUrl (currentHostUrl : Option (List Char)) (fileId : List Char) : List Char :=
  match currentHostUrl with
  | some u => joinApi u (downloadPath fileId)
  | none => '/' :: downloadPath fileId

/-! ## The client's fetch requests (script.js 349, 392, 470)

Each descriptor records the options object the source passes to `fetch`.
All three calls are bare `fetch(url)`: no init object, hence no timeout
and no AbortSignal anywhere in the source. -/

structure FetchRequest where
  url : List Char
  method : String
  timeoutMs : Option Nat
  hasAbortSignal : Bool
deriving DecidableEq

/-- `connectToHost` (337-361): `const response = await fetch(testUrl);`. -/
def connectRequest (hostUrl : List Char) : FetchRequest :=
  ⟨joinApi hostUrl apiFiles, "GET", none, false⟩

/-- `loadAvailableFiles` (382-423): `const response = await fetch(filesUrl);`. -/
def filesRequest (currentHostUrl : Option (List Char)) : FetchRequest :=
  ⟨filesUrl currentHostUrl, "GET", none, false⟩

/-- `downloadFile` (470): `const response = await fetch(downloadUrl);`. -/
def downloadRequest (currentHostUrl : Option (List Char)) (fileId : List Char) :
    FetchRequest :=
  ⟨downloadUrl currentHostUrl fileId, "GET", none, false⟩

/-! ## The registry server

The launchers under `src/` start `server.py`, which is not among the
sources; the registry it implements is therefore modelled from the
specification (spec sections 3, 4.1, 6, 9). -/

/-- One uploaded file (spec section 3): `name`, `mimeType` and `content`;
`size` is the byte length of the content. -/
structure SharedFile where
  name : String
  mimeType : String
  content : List Nat
deriving DecidableEq

def SharedFile.size (f : SharedFile) : Nat := f.content.length

/-- Modelled from the spec: the registry server state (`server.py` is not
under `src/`).  The catalog is the id-to-file mapping in insertion order
(spec section 3); `nextId` is the server's id generator, modelled as a
counter so that each generated id is "a new unique id not currently
present in the catalog" (spec section 4.1). -/
structure Registry where
  catalog : List (Nat × SharedFile)
  nextId : Nat
deriving DecidableEq

def Registry.init : Registry := ⟨[], 0⟩

/-- Modelled from the spec: `Upload` (spec section 4.1) "assigns a new
unique id not currently present in the catalog, stores a SharedFile, and
returns the id".  The `fileId` field of the multipart form (spec section 6)
"is advisory only"; per section 9 the model is "server generates id,
ignoring or remapping any client-suggested value", so the
`clientFileId` argument does not influence the result. -/
def Registry.upload (r : Registry) (clientFileId : String) (f : SharedFile) :
    Registry × Nat :=
  (⟨r.catalog ++ [(r.nextId, f)], r.nextId + 1⟩, r.nextId)

/-- Modelled from the spec: `ListCatalog` (spec sections 4.1 and 6) returns
id, name, size and mimeType of every catalog entry, without content. -/
def Registry.listCatalog (r : Registry) : List (Nat × String × Nat × String) :=
  r.catalog.map (fun e => (e.1, e.2.name, e.2.size, e.2.mimeType))

/-- Modelled from the spec: `Download` (spec sections 4.1 and 6) returns the
stored file together with an "accurate total length up front"
(the Content-Length header), or nothing for an unknown id (404). -/
def Registry.download (r : Registry) (id : Nat) : Option (SharedFile × Nat) :=
  (r.catalog.find? (fun e => e.1 == id)).map (fun e => (e.2, e.2.content.length))

/-- Modelled from the spec: `Remove` (spec section 4.1) deletes the entry;
unknown ids fail with NotFoundError. -/
def Registry.remove (r : Registry) (id : Nat) : Except Unit Registry :=
  if r.catalog.any (fun e => e.1 == id) then
    Except.ok ⟨r.catalog.filter (fun e => e.1 != id), r.nextId⟩
  else Except.error ()

/-- A sequence of uploads; spec section 5 serializes catalog mutations, so
any set of concurrent uploads executes as some such sequence. -/
def Registry.uploadAll (r : Registry) (ups : List (String × SharedFile)) : Registry :=
  ups.foldl (fun acc u => (acc.upload u.1 u.2).1) r

/-- Registry states reachable from a fresh server by uploads and removals. -/
inductive Reachable : Registry → Prop
  | init : Reachable Registry.init
  | upload {r : Registry} (cid : String) (f : SharedFile) :
      Reachable r → Reachable (r.upload cid f).1
  | remove {r r' : Registry} (id : Nat) :
      Reachable r → r.remove id = Except.ok r' → Reachable r'

/-- Every id in a reachable catalog was produced by the generator, hence is
below the counter. -/
theorem reachable_ids_lt_nextId {r : Registry} (h : Reachable r) :
    ∀ e ∈ r.catalog, e.1 < r.nextId := by
  induction h with
  | init => intro e he; simp [Registry.init] at he
  | upload cid f _ ih =>
    intro e he
    simp only [Registry.upload, List.mem_append, List.mem_singleton] at he
    rcases he with he | he
    · exact Nat.lt_succ_of_lt (ih e he)
    · subst he; exact Nat.lt_succ_self _
  | remove id _ hok ih =>
    intro e he
    simp only [Registry.remove] at hok
    split at hok
    · cases hok
      exact ih e (List.mem_of_mem_filter he)
    · cases hok

theorem uploadAll_catalog (ups : List (String × SharedFile)) :
    ∀ r : Registry,
      (r.uploadAll ups).catalog =
        r.catalog ++ (List.range' r.nextId ups.length).zip (ups.map Prod.snd) ∧
      (r.uploadAll ups).nextId = r.nextId + ups.length := by
  induction ups with
  | nil => intro r; simp [Registry.uploadAll]
  | cons u us ih =>
    intro r
    have h := ih (r.upload u.1 u.2).1
    simp only [Registry.uploadAll, List.foldl_cons] at h ⊢
    rcases h with ⟨hc, hn⟩
    simp only [Registry.upload] at hc hn ⊢
    refine ⟨?_, ?_⟩
    · rw [hc]
      simp only [List.length_cons, List.map_cons, List.range'_succ,
        List.zip_cons_cons, List.append_assoc, List.singleton_append]
    · rw [hn]; simp only [List.length_cons]; omega

/-! ## Client upload handling (script.js 173-212)

`handleFiles` generates a local id per file with
`generateId() = Math.random().toString(36).substr(2, 9)` (712-714), keeps
the file in the in-page Map, and posts the file plus that advisory
`fileId` field to `/api/upload`. -/

/-- Network outcome of an awaited JS promise: fulfilled or rejected. -/
inductive NetOutcome (α : Type) where
  | ok (value : α)
  | reject (msg : String)
deriving DecidableEq

/-- Body of `uploadFileToServer` (190-207): the awaited fetch may throw
(`NetOutcome.reject`), otherwise the branch on `response.ok` picks the
toast message. -/
def uploadFileBody (fileName : String) (net : NetOutcome Bool) :
    Except String (List String) :=
  match net with
  | NetOutcome.reject m => Except.error m
  | NetOutcome.ok true => Except.ok [fileName ++ " uploaded and ready to share!"]
  | NetOutcome.ok false => Except.ok ["Failed to upload " ++ fileName]

/-- `uploadFileToServer` (190-212): the whole body sits in try/catch; the
catch turns any thrown error into the error-upload toast, so the function
always returns (`Except.ok`) rather than propagating. -/
def uploadFileToServer (fileName : String) (net : NetOutcome Bool) :
    Except String (List String) :=
  match uploadFileBody fileName net with
  | Except.ok ts => Except.ok ts
  | Except.error _ => Except.ok ["Error uploading " ++ fileName]

/-- Body of `loadAvailableFiles` (385-418): fetch plus `response.json()`
may throw; otherwise the rendering branches on `data.files`. -/
def loadFilesBody (net : NetOutcome (Option (List String))) :
    Except String (List String) :=
  match net with
  | NetOutcome.reject m => Except.error m
  | NetOutcome.ok (some fs) =>
      if fs.length > 0 then
        Except.ok ["Found " ++ toString fs.length ++ " file(s) to download"]
      else Except.ok ["No files shared yet. Host device needs to add files first."]
  | NetOutcome.ok none =>
      Except.ok ["No files shared yet. Host device needs to add files first."]

/-- `loadAvailableFiles` (382-423): the catch (419-422) renders an inline
error message instead of propagating. -/
def loadAvailableFiles (net : NetOutcome (Option (List String))) :
    Except String (List String) :=
  match loadFilesBody net with
  | Except.ok msgs => Except.ok msgs
  | Except.error _ =>
      Except.ok ["Error loading files. Please check connection and try again."]

/-! ## Client download handling (script.js 425-532)

The source function first branches on the user agent (435-448): mobile
devices get a direct `window.location.href` navigation, desktop gets the
progress-tracked fetch path. -/

/-- The chunk pump of `downloadFile` (481-509): per chunk,
`loaded += value.length` and the progress report
`Math.round((loaded / total) * 100)`; the chunk is enqueued into the
stream that becomes the downloaded blob.  Returns (progress reports,
blob bytes). -/
def pump (total loaded : Nat) : List (List Nat) → List Nat × List Nat
  | [] => ([], [])
  | c :: cs =>
    let rest := pump total (loaded + c.length) cs
    (jsRound (100 * (loaded + c.length)) total :: rest.1, c ++ rest.2)

/-- Body of the desktop path of `downloadFile` (470-525): a rejected fetch
or a non-ok response throws (`throw new Error('Download failed')`), else
the Content-Length is read, the body is pumped and the blob saved.
The response is `(ok flag, Content-Length, body chunks)`.  Returns
(toasts, progress reports, blob bytes). -/
def downloadFileBody (fileName : String)
    (net : NetOutcome (Bool × Nat × List (List Nat))) :
    Except String (List String × List Nat × List Nat) :=
  match net with
  | NetOutcome.reject m => Except.error m
  | NetOutcome.ok (false, _, _) => Except.error "Download failed"
  | NetOutcome.ok (true, len, chunks) =>
      let res := pump len 0 chunks
      Except.ok ([fileName ++ " downloaded successfully!"], res.1, res.2)

/-- The desktop fetch path of `downloadFile` (450-526) together with its
catch (528-531), which shows the failed-download toast, so on this path no
network error propagates out.  The mobile branch of the source function is
modelled separately by `downloadFileDispatch`. -/
def downloadFile (fileName : String)
    (net : NetOutcome (Bool × Nat × List (List Nat))) :
    Except String (List String × List Nat × List Nat) :=
  match downloadFileBody fileName net with
  | Except.ok res => Except.ok res
  | Except.error _ => Except.ok (["Failed to download " ++ fileName], [], [])

/-- What the browser does with the mobile branch's direct navigation
`window.location.href = downloadUrl` (443): an attachment response starts
the download and keeps the page; an unreachable host or an unknown id
(error/404 response) replaces the document with a browser error page,
ending the browsing session in that tab.  The source code never observes
which of the two happened. -/
inductive NavOutcome where
  | attachment
  | errorPage
deriving DecidableEq

/-- Observable result of one `downloadFile` call: the toasts shown as
(message, type) pairs, and whether the browsing session survives in the
tab. -/
structure DownloadOutcome where
  toasts : List (String × String)
  sessionSurvives : Bool
deriving DecidableEq

/-- The whole `downloadFile` (425-532) including the user-agent branch
(435-448).  On a mobile user agent (438-448) the code shows an info toast,
assigns `window.location.href` and schedules an unconditional success
toast after two seconds: no fetch is issued, nothing can throw, the
network outcome is never observed, and session survival is decided solely
by the navigation outcome.  On desktop (450-526) the fetch path runs and
its catch (528-531) turns any failure into an error-typed toast; nothing
navigates, so the session always survives.  Toast types follow the
source: `showToast(msg)` defaults to success (716), the mobile start toast
passes `'info'` (440), the desktop failure toast passes `'error'`
(530). -/
def downloadFileDispatch (fileName : String) (isMobile : Bool)
    (nav : NavOutcome) (net : NetOutcome (Bool × Nat × List (List Nat))) :
    DownloadOutcome :=
  if isMobile then
    { toasts := [("Starting download: " ++ fileName, "info"),
        (fileName ++ " download started! Check your downloads.", "success")],
      sessionSurvives := nav == NavOutcome.attachment }
  else
    match downloadFileBody fileName net with
    | Except.ok res =>
        { toasts := res.1.map (fun m => (m, "success")), sessionSurvives := true }
    | Except.error _ =>
        { toasts := [("Failed to download " ++ fileName, "error")],
          sessionSurvives := true }

/-! ## Network-address detection (script.js 79-131) -/

def serverPort : Nat := 8080

/-- The four ways `detectNetworkInfo` can resolve: the server answers
`/api/network-info`; the WebRTC fallback yields an IPv4 candidate before
the 5-second timer; the timer fires first; or the fallback setup throws. -/
inductive DetectEnv where
  | serverInfo (url : String)
  | webrtcIp (ip : String)
  | webrtcTimeout
  | webrtcError
deriving DecidableEq

structure DetectResult where
  serverUrl : String
  statusMsg : String
  statusType : String
deriving DecidableEq

/-- `detectNetworkInfo` (79-131): each branch sets `this.serverUrl` and a
status banner; both no-address outcomes (timer at 119-124, catch at
126-130) fall back to a localhost URL and a displayed message. -/
def detectNetworkInfo : DetectEnv → DetectResult
  | DetectEnv.serverInfo url => ⟨url, "Connected to local network", "success"⟩
  | DetectEnv.webrtcIp ip =>
      ⟨"http://" ++ ip ++ ":" ++ toString serverPort,
        "Connected to local network", "success"⟩
  | DetectEnv.webrtcTimeout =>
      ⟨"http://localhost:" ++ toString serverPort,
        "Using localhost - network detection failed", "warning"⟩
  | DetectEnv.webrtcError =>
      ⟨"http://localhost:" ++ toString serverPort,
        "Network detection failed - using localhost", "error"⟩

/-! ## Outward actions of the client (for the data-plane claim)

Every fetch and
data-channel operation the source performs, per function.  `script.js`
creates a data channel (`setupPeerConnection`, 652-671) and installs an
`onmessage` handler (`handleDataChannelMessage`, 673-692) but contains no
`dataChannel.send` call at all; `handleFileChunk` and
`handleFileComplete`, which the message dispatch names, are not defined
on the class, so a received chunk raises a TypeError that the handler's
try/catch logs. -/

inductive Action where
  | httpUploadBytes (url : List Char) (payload : List Nat)
  | httpFetchJson (url : List Char)
  | httpFetchBytes (url : List Char)
  | dcCreate (label : String)
  | dcSendBytes (payload : List Nat)
  | note (msg : String)
deriving DecidableEq

def Action.isDataChannelSend : Action → Bool
  | Action.dcSendBytes _ => true
  | _ => false

/-- Actions that move file content: the upload POST body, the download
response stream, or a would-be data-channel send. -/
def Action.carriesFileContent : Action → Bool
  | Action.httpUploadBytes _ _ => true
  | Action.httpFetchBytes _ => true
  | Action.dcSendBytes _ => true
  | _ => false

/-- `setupPeerConnection` (652-671): creates the channel, registers
handlers, sends nothing. -/
def setupPeerTrace : List Action := [Action.dcCreate "fileTransfer"]

def uploadEndpoint : List Char := "/api/upload".toList

/-- `uploadFileToServer` (190-212): one POST of the file bytes to
`/api/upload`. -/
def uploadTrace (f : SharedFile) : List Action :=
  [Action.httpUploadBytes uploadEndpoint f.content,
   Action.note (f.name ++ " uploaded and ready to share!")]

/-- `connectToHost` (337-361): one metadata GET of the catalog. -/
def connectTrace (hostUrl : List Char) : List Action :=
  [Action.httpFetchJson (joinApi hostUrl apiFiles)]

/-- `loadAvailableFiles` (382-423): one metadata GET of the catalog. -/
def loadFilesTrace (currentHostUrl : Option (List Char)) : List Action :=
  [Action.httpFetchJson (filesUrl currentHostUrl)]

/-- `downloadFile` (425-532): both the mobile navigation path and the
desktop fetch path pull the bytes from the download endpoint URL. -/
def downloadTrace (currentHostUrl : Option (List Char)) (fileId : List Char) :
    List Action :=
  [Action.httpFetchBytes (downloadUrl currentHostUrl fileId)]

/-- Messages `handleDataChannelMessage` (673-692) can receive. -/
inductive DcMessage where
  | fileList
  | fileChunk (payload : List Nat)
  | fileComplete
  | invalid
deriving DecidableEq

/-- `handleDataChannelMessage` (673-692): `fileList` renders metadata;
`fileChunk`/`fileComplete` dispatch to methods the class never defines,
so the call throws and the catch logs; unparsable input is logged.  No
branch sends anything or stores received bytes as file content. -/
def dcMessageTrace : DcMessage → List Action
  | DcMessage.fileList => [Action.note "displayAvailableFiles"]
  | DcMessage.fileChunk _ =>
      [Action.note "TypeError: this.handleFileChunk is not a function (caught)"]
  | DcMessage.fileComplete =>
      [Action.note "TypeError: this.handleFileComplete is not a function (caught)"]
  | DcMessage.invalid => [Action.note "Error handling data channel message"]

/-- All outward actions of one client session exercising every
transfer-relevant function of the source. -/
def clientTrace (hostUrl : List Char) (currentHostUrl : Option (List Char))
    (fileId : List Char) (f : SharedFile) (m : DcMessage) : List Action :=
  setupPeerTrace ++ uploadTrace f ++ connectTrace hostUrl ++
    loadFilesTrace currentHostUrl ++ downloadTrace currentHostUrl fileId ++
    dcMessageTrace m

/-! ## Host-side file removal (script.js 230-249) -/

/-- `removeFile` (230-249): `this.files.delete(fileId)` runs first and
unconditionally; the server DELETE happens afterwards inside try/catch,
and only a 200 response produces a toast (the catch merely logs).  A JS
Map holds at most one entry per key, so deletion is embedded as a key
filter.  Returns the updated local map and the toasts. -/
def removeFileClient (files : List (String × SharedFile)) (fileId : String)
    (server : NetOutcome Bool) : List (String × SharedFile) × List String :=
  let files' := files.filter (fun e => e.1 != fileId)
  let toasts :=
    match server with
    | NetOutcome.ok true => ["File removed successfully"]
    | NetOutcome.ok false => []
    | NetOutcome.reject _ => []
  (files', toasts)

/-! ## Claim theorems -/

/-- A concrete shared file used by the witnesses. -/
def demoFile : SharedFile := ⟨"photo.jpg", "image/jpeg", [1, 2, 3]⟩

/-- C1: every id in the catalog was generated by the registry server and was
never supplied by a client — in any reachable registry state, all catalog
ids are past values of the server's generator, and an upload's authoritative
id is independent of the client-suggested `fileId` (the result is identical
for any two suggested values) and is fresh with respect to the catalog. -/
theorem catalog_ids_server_generated (r : Registry) (h : Reachable r)
    (cid cid' : String) (f : SharedFile) :
    r.upload cid f = r.upload cid' f ∧
    (r.upload cid f).2 ∉ r.catalog.map Prod.fst ∧
    (∀ e ∈ r.catalog, e.1 < r.nextId) := by
  refine ⟨rfl, ?_, reachable_ids_lt_nextId h⟩
  intro hmem
  simp only [List.mem_map] at hmem
  obtain ⟨e, he, heq⟩ := hmem
  have hlt := reachable_ids_lt_nextId h e he
  simp only [Registry.upload] at heq
  omega

theorem catalog_ids_server_generated_witness :
    Reachable (Registry.init.upload "abc123xyz" demoFile).1 ∧
    ((Registry.init.upload "abc123xyz" demoFile).1.upload "k9m2p4q7r" demoFile).2 ∉
      (Registry.init.upload "abc123xyz" demoFile).1.catalog.map Prod.fst :=
  ⟨Reachable.upload "abc123xyz" demoFile Reachable.init,
    (catalog_ids_server_generated (Registry.init.upload "abc123xyz" demoFile).1
      (Reachable.upload "abc123xyz" demoFile Reachable.init)
      "k9m2p4q7r" "zzzzzzzzz" demoFile).2.1⟩

/-- C2: any serialization of N concurrent uploads of N distinct files into a
fresh registry leaves a catalog that `ListCatalog` reports with exactly N
entries, pairwise-distinct ids, and every uploaded file present (in upload
order): no collisions, no lost entries. -/
theorem uploads_distinct_ids_no_loss (ups : List (String × SharedFile))
    (hdistinct : (ups.map Prod.snd).Nodup) :
    (Registry.init.uploadAll ups).listCatalog.length = ups.length ∧
    ((Registry.init.uploadAll ups).listCatalog.map Prod.fst).Nodup ∧
    (Registry.init.uploadAll ups).catalog.map Prod.snd = ups.map Prod.snd := by
  obtain ⟨hc, -⟩ := uploadAll_catalog ups Registry.init
  rw [show Registry.init.catalog = [] from rfl,
    show Registry.init.nextId = 0 from rfl, List.nil_append] at hc
  have hlen : (List.range' 0 ups.length).length = (ups.map Prod.snd).length := by
    simp
  have hfst : (Registry.init.uploadAll ups).catalog.map Prod.fst =
      List.range' 0 ups.length := by
    rw [hc, List.map_fst_zip _ _ (le_of_eq hlen)]
  refine ⟨?_, ?_, ?_⟩
  · simp only [Registry.listCatalog, List.length_map, hc, List.length_zip]
    simp
  · have hmap : (Registry.init.uploadAll ups).listCatalog.map Prod.fst =
        (Registry.init.uploadAll ups).catalog.map Prod.fst := by
      simp [Registry.listCatalog, List.map_map, Function.comp]
    rw [hmap, hfst]
    exact List.nodup_range' 0 ups.length
  · rw [hc, List.map_snd_zip _ _ (ge_of_eq hlen)]

theorem uploads_distinct_ids_no_loss_witness :
    ([demoFile, ⟨"notes.txt", "text/plain", [10]⟩] :
        List SharedFile).Nodup ∧
    (Registry.init.uploadAll
        [("abc123xyz", demoFile), ("k9m2p4q7r", ⟨"notes.txt", "text/plain", [10]⟩)]
      ).listCatalog.length = 2 :=
  ⟨by decide,
    (uploads_distinct_ids_no_loss
      [("abc123xyz", demoFile), ("k9m2p4q7r", ⟨"notes.txt", "text/plain", [10]⟩)]
      (by decide)).1⟩

/-- C4: the claim asserts every client request applies a request/read
timeout; the source's three network calls (`connectToHost`,
`loadAvailableFiles`, `downloadFile`) are all bare `fetch(url)` with no
timeout and no AbortSignal, so no timeout is ever applied. -/
theorem client_requests_apply_no_timeout (hostUrl : List Char)
    (currentHostUrl : Option (List Char)) (fileId : List Char) :
    (connectRequest hostUrl).timeoutMs = none ∧
    (connectRequest hostUrl).hasAbortSignal = false ∧
    (filesRequest currentHostUrl).timeoutMs = none ∧
    (filesRequest currentHostUrl).hasAbortSignal = false ∧
    (downloadRequest currentHostUrl fileId).timeoutMs = none ∧
    (downloadRequest currentHostUrl fileId).hasAbortSignal = false :=
  ⟨rfl, rfl, rfl, rfl, rfl, rfl⟩

/-- C6: whenever network detection yields no usable LAN address — the
five-second WebRTC timer fires, or the fallback setup throws — the
resulting base URL is the localhost fallback and a non-success status
message is surfaced; `detectNetworkInfo` is total on every environment,
so detection failure never aborts startup. -/
theorem network_detection_fails_soft (env : DetectEnv)
    (h : env = DetectEnv.webrtcTimeout ∨ env = DetectEnv.webrtcError) :
    (detectNetworkInfo env).serverUrl = "http://localhost:8080" ∧
    (detectNetworkInfo env).statusMsg ≠ "" ∧
    ((detectNetworkInfo env).statusType = "warning" ∨
      (detectNetworkInfo env).statusType = "error") := by
  rcases h with h | h <;> subst h <;>
    exact ⟨rfl, by decide, by first | exact Or.inl rfl | exact Or.inr rfl⟩

theorem network_detection_fails_soft_witness :
    (DetectEnv.webrtcTimeout = DetectEnv.webrtcTimeout ∨
      DetectEnv.webrtcTimeout = DetectEnv.webrtcError) ∧
    (detectNetworkInfo DetectEnv.webrtcTimeout).serverUrl =
      "http://localhost:8080" :=
  ⟨Or.inl rfl,
    (network_detection_fails_soft DetectEnv.webrtcTimeout (Or.inl rfl)).1⟩

/-- C9: the host-side `removeFile` deletes the id from the local file map
unconditionally: the resulting map is the same whatever the server
round-trip does (success, non-ok response, or thrown error), and the id is
absent from it. -/
theorem removeFile_local_delete_unconditional
    (files : List (String × SharedFile)) (fileId : String)
    (s s' : NetOutcome Bool) :
    (removeFileClient files fileId s).1 = (removeFileClient files fileId s').1 ∧
    ((removeFileClient files fileId s).1.all (fun e => e.1 != fileId)) = true ∧
    (removeFileClient files fileId s).1.lookup fileId = none := by
  refine ⟨rfl, ?_, ?_⟩
  · rw [List.all_eq_true]
    intro e he
    exact (List.mem_filter.mp he).2
  · show (files.filter (fun e => e.1 != fileId)).lookup fileId = none
    induction files with
    | nil => rfl
    | cons a l ih =>
      obtain ⟨k, v⟩ := a
      by_cases hk : k = fileId
      · subst hk
        simpa [List.filter_cons] using ih
      · have hb : (k != fileId) = true := bne_iff_ne.mpr hk
        have hfk : (fileId == k) = false := beq_eq_false_iff_ne.mpr (Ne.symm hk)
        rw [List.filter_cons, if_pos hb]
        simp only [List.lookup, hfk]
        exact ih

/-- C5 counterexample: on a mobile user agent, a failed download (here a
rejected network to an unreachable host, with the navigation landing on a
browser error page) is never caught or surfaced — the toasts shown are the
unconditional info/success pair, none of type error, and the session does
not survive the replaced document.  This refutes the claim for the
download operation. -/
theorem mobile_download_failure_not_surfaced :
    (downloadFileDispatch "photo.jpg" true NavOutcome.errorPage
        (NetOutcome.reject "Failed to fetch")).sessionSurvives = false ∧
    ((downloadFileDispatch "photo.jpg" true NavOutcome.errorPage
        (NetOutcome.reject "Failed to fetch")).toasts.all
      (fun t => t.2 != "error")) = true ∧
    (downloadFileDispatch "photo.jpg" true NavOutcome.errorPage
        (NetOutcome.reject "Failed to fetch")).toasts =
      [("Starting download: photo.jpg", "info"),
       ("photo.jpg download started! Check your downloads.", "success")] := by
  refine ⟨rfl, rfl, rfl⟩

/-- C5 amended: upload failures and catalog-fetch failures are always
caught and surfaced as user-visible notifications with the operation
returning normally; download failures are caught, surfaced as an
error-typed toast and session-preserving on the desktop (fetch) path,
but on the mobile path the toasts are the unconditional info/success pair
independent of the network outcome (no failure notification) and session
survival is decided solely by the navigation outcome. -/
theorem network_failures_caught_and_notified
    (fileName : String) (upNet : NetOutcome Bool)
    (lsNet : NetOutcome (Option (List String)))
    (dlNet : NetOutcome (Bool × Nat × List (List Nat))) (nav : NavOutcome) :
    (∃ ts, uploadFileToServer fileName upNet = Except.ok ts ∧
      (∀ m, upNet = NetOutcome.reject m → ts = ["Error uploading " ++ fileName]) ∧
      (upNet = NetOutcome.ok false → ts = ["Failed to upload " ++ fileName])) ∧
    (∃ ms, loadAvailableFiles lsNet = Except.ok ms ∧
      (∀ m, lsNet = NetOutcome.reject m →
        ms = ["Error loading files. Please check connection and try again."])) ∧
    ((downloadFileDispatch fileName false nav dlNet).sessionSurvives = true ∧
      (∀ m, dlNet = NetOutcome.reject m →
        (downloadFileDispatch fileName false nav dlNet).toasts =
          [("Failed to download " ++ fileName, "error")]) ∧
      (∀ len chunks, dlNet = NetOutcome.ok (false, len, chunks) →
        (downloadFileDispatch fileName false nav dlNet).toasts =
          [("Failed to download " ++ fileName, "error")])) ∧
    ((downloadFileDispatch fileName true nav dlNet).toasts =
        [("Starting download: " ++ fileName, "info"),
          (fileName ++ " download started! Check your downloads.", "success")] ∧
      (downloadFileDispatch fileName true nav dlNet).sessionSurvives =
        (nav == NavOutcome.attachment)) := by
  refine ⟨?_, ?_, ?_, rfl, rfl⟩
  · cases upNet with
    | ok b =>
      cases b
      · refine ⟨_, rfl, ?_, ?_⟩
        · intro m hm; cases hm
        · intro _; rfl
      · refine ⟨_, rfl, ?_, ?_⟩
        · intro m hm; cases hm
        · intro hm; simp at hm
    | reject m =>
      refine ⟨_, rfl, ?_, ?_⟩
      · intro _ _; rfl
      · intro hm; cases hm
  · cases lsNet with
    | ok v =>
      cases v with
      | none =>
        refine ⟨_, rfl, ?_⟩
        intro m hm; cases hm
      | some fs =>
        by_cases hfs : fs.length > 0
        · refine ⟨["Found " ++ toString fs.length ++ " file(s) to download"],
            ?_, ?_⟩
          · simp [loadAvailableFiles, loadFilesBody, hfs]
          · intro m hm; cases hm
        · refine ⟨["No files shared yet. Host device needs to add files first."],
            ?_, ?_⟩
          · simp [loadAvailableFiles, loadFilesBody, hfs]
          · intro m hm; cases hm
    | reject m =>
      refine ⟨_, rfl, ?_⟩
      intro _ _; rfl
  · cases dlNet with
    | ok v =>
      obtain ⟨ok, len, chunks⟩ := v
      cases ok
      · refine ⟨rfl, ?_, ?_⟩
        · intro m hm; cases hm
        · intro _ _ _; rfl
      · refine ⟨rfl, ?_, ?_⟩
        · intro m hm; cases hm
        · intro l c hm; simp at hm
    | reject m =>
      refine ⟨rfl, ?_, ?_⟩
      · intro _ _; rfl
      · intro l c hm; cases hm

theorem network_failures_caught_and_notified_witness :
    uploadFileToServer "notes.txt" (NetOutcome.reject "Failed to fetch") =
      Except.ok ["Error uploading notes.txt"] ∧
    (downloadFileDispatch "notes.txt" false NavOutcome.errorPage
        (NetOutcome.reject "Failed to fetch")).toasts =
      [("Failed to download notes.txt", "error")] := by
  obtain ⟨⟨ts, hok, hrej, -⟩, -, ⟨-, hdesk, -⟩, -⟩ :=
    network_failures_caught_and_notified "notes.txt"
      (NetOutcome.reject "Failed to fetch") (NetOutcome.reject "x")
      (NetOutcome.reject "Failed to fetch") NavOutcome.errorPage
  constructor
  · rw [hok, hrej "Failed to fetch" rfl]
    rfl
  · rw [hdesk "Failed to fetch" rfl]
    rfl

/-- C8: whether or not the entered host base URL carries a trailing slash,
the catalog-fetch and download URLs are the base joined to the api path by
exactly one slash, so both spellings of the base address the same
endpoint. -/
theorem url_join_single_separator (base p fileId : List Char)
    (h : base.getLast? ≠ some '/') :
    joinApi base p = base ++ '/' :: p ∧
    joinApi (base ++ ['/']) p = base ++ '/' :: p ∧
    (connectRequest base).url = base ++ '/' :: apiFiles ∧
    (connectRequest (base ++ ['/'])).url = base ++ '/' :: apiFiles ∧
    filesUrl (some base) = base ++ '/' :: apiFiles ∧
    filesUrl (some (base ++ ['/'])) = base ++ '/' :: apiFiles ∧
    downloadUrl (some base) fileId = base ++ '/' :: downloadPath fileId ∧
    downloadUrl (some (base ++ ['/'])) fileId =
      base ++ '/' :: downloadPath fileId := by
  have hfalse : endsWithSlash base = false := by
    simp only [endsWithSlash, beq_eq_false_iff_ne]
    exact h
  have htrue : endsWithSlash (base ++ ['/']) = true := by
    simp [endsWithSlash, List.getLast?_concat]
  have hplain : ∀ q : List Char, joinApi base q = base ++ '/' :: q := by
    intro q
    simp [joinApi, hfalse]
  have hslash : ∀ q : List Char, joinApi (base ++ ['/']) q = base ++ '/' :: q := by
    intro q
    simp [joinApi, htrue]
  exact ⟨hplain p, hslash p, hplain apiFiles, hslash apiFiles,
    hplain apiFiles, hslash apiFiles, hplain (downloadPath fileId),
    hslash (downloadPath fileId)⟩

theorem url_join_single_separator_witness :
    ("http://192.168.1.7:8080".toList.getLast? ≠ some '/') ∧
    filesUrl (some ("http://192.168.1.7:8080".toList ++ ['/'])) =
      "http://192.168.1.7:8080".toList ++ '/' :: apiFiles :=
  ⟨by decide,
    (url_join_single_separator "http://192.168.1.7:8080".toList apiFiles
      "abc123xyz".toList (by decide)).2.2.2.2.2.1⟩

theorem pump_blob (total : Nat) :
    ∀ (chunks : List (List Nat)) (loaded : Nat),
      (pump total loaded chunks).2 = chunks.flatten := by
  intro chunks
  induction chunks with
  | nil => intro loaded; rfl
  | cons c cs ih =>
    intro loaded
    simp only [pump, List.flatten_cons]
    rw [ih]

theorem pump_progress (total : Nat) :
    ∀ (chunks : List (List Nat)) (loaded k : Nat), k < chunks.length →
      (pump total loaded chunks).1.get? k =
        some (jsRound (100 * (loaded + (chunks.take (k + 1)).flatten.length)) total) := by
  intro chunks
  induction chunks with
  | nil => intro loaded k hk; simp at hk
  | cons c cs ih =>
    intro loaded k hk
    cases k with
    | zero => simp [pump]
    | succ k =>
      have hk' : k < cs.length := by simpa using hk
      simp only [pump, List.get?_cons_succ, List.take_succ_cons, List.flatten_cons,
        List.length_append]
      rw [ih (loaded + c.length) k hk']
      congr 2
      omega

/-- C3: for a catalog file, the Content-Length the registry reports equals
the stored byte length; when the client's pump consumes a chunk stream
delivering exactly the file's content, the downloaded blob is that content
(so the reported total equals the bytes actually delivered) and the k-th
progress report is `Math.round` of 100 times bytes-received-so-far divided
by the Content-Length; the empty file (total 0, no chunks) completes with
no error. -/
theorem download_progress_accurate :
    (∀ (r : Registry) (id : Nat) (f : SharedFile) (len : Nat)
        (fileName : String) (chunks : List (List Nat)),
      r.download id = some (f, len) →
      chunks.flatten = f.content →
      len = f.content.length ∧
      downloadFile fileName (NetOutcome.ok (true, len, chunks)) =
        Except.ok ([fileName ++ " downloaded successfully!"],
          (pump len 0 chunks).1, f.content) ∧
      (pump len 0 chunks).2.length = len ∧
      (∀ k, k < chunks.length →
        (pump len 0 chunks).1.get? k =
          some (jsRound (100 * (chunks.take (k + 1)).flatten.length) len))) ∧
    (∀ fileName, downloadFile fileName (NetOutcome.ok (true, 0, [])) =
      Except.ok ([fileName ++ " downloaded successfully!"], [], [])) := by
  constructor
  · intro r id f len fileName chunks hdl hjoin
    have hlen : len = f.content.length := by
      simp only [Registry.download, Option.map_eq_some'] at hdl
      obtain ⟨e, -, he⟩ := hdl
      have hf : e.2 = f := by simpa using congrArg Prod.fst he
      have h2 : e.2.content.length = len := by simpa using congrArg Prod.snd he
      rw [← hf]
      exact h2.symm
    have hblob : (pump len 0 chunks).2 = f.content := by
      rw [pump_blob, hjoin]
    refine ⟨hlen, ?_, ?_, ?_⟩
    · simp only [downloadFile, downloadFileBody]
      rw [hblob]
    · rw [hblob, hlen]
    · intro k hk
      have := pump_progress len chunks 0 k hk
      simpa using this
  · intro fileName
    rfl

theorem download_progress_accurate_witness :
    ((Registry.init.upload "abc123xyz" demoFile).1.download 0 =
      some (demoFile, 3)) ∧
    downloadFile "photo.jpg" (NetOutcome.ok (true, 3, [[1], [2, 3]])) =
      Except.ok (["photo.jpg downloaded successfully!"],
        (pump 3 0 [[1], [2, 3]]).1, demoFile.content) := by
  refine ⟨by decide, ?_⟩
  exact (download_progress_accurate.1
    (Registry.init.upload "abc123xyz" demoFile).1 0 demoFile 3 "photo.jpg"
    [[1], [2, 3]] (by decide) (by decide)).2.1

/-- C7: across a client session exercising every transfer-relevant
function of the source, no action is a data-channel send (the established
channel stays a dead data plane), and every action that carries file
content is the HTTP upload POST to `/api/upload` or the HTTP download GET
of `api/download/` for the requested id. -/
theorem data_channel_never_carries_file_content
    (hostUrl : List Char) (currentHostUrl : Option (List Char))
    (fileId : List Char) (f : SharedFile) (m : DcMessage) :
    ∀ a ∈ clientTrace hostUrl currentHostUrl fileId f m,
      a.isDataChannelSend = false ∧
      (a.carriesFileContent = true →
        a = Action.httpUploadBytes uploadEndpoint f.content ∨
        a = Action.httpFetchBytes (downloadUrl currentHostUrl fileId)) := by
  intro a ha
  simp only [clientTrace, setupPeerTrace, uploadTrace, connectTrace,
    loadFilesTrace, downloadTrace, List.append_assoc, List.cons_append,
    List.nil_append, List.mem_cons] at ha
  rcases ha with rfl | rfl | rfl | rfl | rfl | rfl | ha
  · exact ⟨rfl, fun h => by simp [Action.carriesFileContent] at h⟩
  · exact ⟨rfl, fun _ => Or.inl rfl⟩
  · exact ⟨rfl, fun h => by simp [Action.carriesFileContent] at h⟩
  · exact ⟨rfl, fun h => by simp [Action.carriesFileContent] at h⟩
  · exact ⟨rfl, fun h => by simp [Action.carriesFileContent] at h⟩
  · exact ⟨rfl, fun _ => Or.inr rfl⟩
  · cases m <;> simp only [dcMessageTrace, List.mem_cons, List.not_mem_nil,
      or_false] at ha <;> subst ha <;>
      exact ⟨rfl, fun h => by simp [Action.carriesFileContent] at h⟩

theorem data_channel_never_carries_file_content_witness :
    Action.httpUploadBytes uploadEndpoint demoFile.content ∈
      clientTrace "http://192.168.1.7:8080".toList
        (some "http://192.168.1.7:8080".toList) "abc123xyz".toList demoFile
        (DcMessage.fileChunk [9, 9]) ∧
    (Action.httpUploadBytes uploadEndpoint demoFile.content).isDataChannelSend =
      false := by
  have hmem : Action.httpUploadBytes uploadEndpoint demoFile.content ∈
      clientTrace "http://192.168.1.7:8080".toList
        (some "http://192.168.1.7:8080".toList) "abc123xyz".toList demoFile
        (DcMessage.fileChunk [9, 9]) := by
    simp [clientTrace, setupPeerTrace, uploadTrace, connectTrace,
      loadFilesTrace, downloadTrace, dcMessageTrace]
  exact ⟨hmem,
    (data_channel_never_carries_file_content "http://192.168.1.7:8080".toList
      (some "http://192.168.1.7:8080".toList) "abc123xyz".toList demoFile
      (DcMessage.fileChunk [9, 9]) _ hmem).1⟩

/-- C10 counterexample: at 2^51 bytes (2 petabytes), the magnitude index is
`Math.floor(Math.log(2^51)/Math.log(1024)) = 5`, past the end of the
five-element unit list, so the JS code renders `sizes[5]` as the word
`undefined`: the result is "2 undefined", which ends in none of the units
Bytes, KB, MB, GB, TB — refuting the claim for this positive input. -/
theorem formatFileSize_unit_overflow_counterexample :
    formatFileSize (2 ^ 51) = "2 undefined" ∧
    sizes.get? (log1024 (2 ^ 51)) = none ∧
    sizes.all
      (fun u => !((" " ++ u).toList.isSuffixOf (formatFileSize (2 ^ 51)).toList)) =
      true := by
  refine ⟨by decide, by decide, by decide⟩

/-- C10 amended: `formatFileSize` is total on every byte count — 0 maps to
"0 Bytes" with no logarithm taken — and for every positive input BELOW
1024^5 the result is the hundredths-rounded scaled value (hence at most
two decimal places) followed by the unit of index
`Math.floor(log_1024 bytes)` among Bytes, KB, MB, GB, TB; at 1024^5 and
above the index leaves the unit list (see the counterexample). -/
theorem formatFileSize_bounded_units :
    formatFileSize 0 = "0 Bytes" ∧
    ∀ (bytes : Nat), 0 < bytes → bytes < 1024 ^ 5 →
      ∃ u, sizes.get? (log1024 bytes) = some u ∧ u ∈ sizes ∧
        formatFileSize bytes =
          renderHundredths (jsRound (100 * bytes) (1024 ^ log1024 bytes)) ++
            " " ++ u := by
  refine ⟨rfl, ?_⟩
  intro bytes hpos hlt
  have hlog : log1024 bytes < 5 := by
    rw [log1024_eq_log]
    exact Nat.log_lt_of_lt_pow hpos.ne' hlt
  have hlen : log1024 bytes < sizes.length := by
    simpa [sizes] using hlog
  refine ⟨sizes.get ⟨_, hlen⟩, List.get?_eq_get hlen, List.get_mem _ _ hlen, ?_⟩
  rw [formatFileSize, if_neg hpos.ne']
  simp only [List.get?_eq_get hlen, Option.getD_some]

theorem formatFileSize_bounded_units_witness :
    0 < 1536 ∧ 1536 < 1024 ^ 5 ∧
    (∃ u, sizes.get? (log1024 1536) = some u ∧ u ∈ sizes ∧
      formatFileSize 1536 =
        renderHundredths (jsRound (100 * 1536) (1024 ^ log1024 1536)) ++
          " " ++ u) :=
  ⟨by decide, by decide,
    formatFileSize_bounded_units.2 1536 (by decide) (by decide)⟩

end FileShare
